import Mathlib

/-!
Verification development for the configuration core of the vimiv image
viewer: the mode-scoped keybinding resolver
(src/vimiv/config/keybindings.py) and the typed settings registry
(vimiv.api.settings, exercised by src/tests/unit/api/test_settings.py).

Python dictionaries are embedded as association lists with unique keys,
Python exceptions as explicit error values, and the object identity that
the keybinding registry relies on (Bindings objects stored in a
module-level dict and mutated in place) as a small heap of references.
-/

namespace Vimiv

/-! ## Bindings: the per-mode keybinding table (class Bindings, a UserDict) -/

abbrev Key := String

abbrev Command := String

/-- The contents of one `Bindings` object: a Python dict from key sequence
to command, embedded as an association list (unique keys, insertion order). -/
abbrev BMap := List (Key × Command)

/-- Python `d[k]` / `d.get(k)`: the value stored at key `k`, if any. -/
def BMap.find (m : BMap) (k : Key) : Option Command :=
  (List.find? (fun kv => kv.1 == k) m).map (fun kv => kv.2)

/-- Python `k in d`. -/
def BMap.hasKey (m : BMap) (k : Key) : Bool :=
  (m.find k).isSome

/-- Python `d[k] = v`: overwrite in place when the key exists, else append
(insertion order of a Python dict). -/
def BMap.insert (m : BMap) (k : Key) (v : Command) : BMap :=
  if m.hasKey k then m.map (fun kv => if kv.1 == k then (k, v) else kv)
  else m ++ [(k, v)]

/-- Python `del d[k]`: drop the entry stored at `k`. -/
def BMap.erase (m : BMap) (k : Key) : BMap :=
  m.filter (fun kv => kv.1 != k)

/-- `Bindings.__add__`: `Bindings(startdict=\x7b**self, **other\x7d)`. The Python
dict merge keeps `self`'s entries in order with `other`'s value winning on a
shared key, then appends `other`'s remaining entries; this definition
reproduces exactly that content and order. -/
def BMap.union (a b : BMap) : BMap :=
  a.map (fun kv => (kv.1, (b.find kv.1).getD kv.2)) ++
    b.filter (fun kv => (a.find kv.1).isNone)

/-- `Bindings.partial_match`: `False` on the empty string, else `True` iff
some bound key sequence starts with `keys`. -/
def BMap.partial_match (m : BMap) (keys : String) : Bool :=
  if keys = "" then false
  else m.any (fun kv => keys.isPrefixOf kv.1)

/-! ## Modes and the registry state -/

/-- Modelled from the spec: vimiv.modes is not among the sources; the spec
describes `Mode` as an "enumerated constant (e.g. GLOBAL, IMAGE, THUMBNAIL,
LIBRARY, COMMAND, …)". -/
inductive Mode
  | global
  | image
  | thumbnail
  | library
  | command
deriving DecidableEq, Repr

/-- The three fallback-enabled modes, the list
`[Modes.IMAGE, Modes.THUMBNAIL, Modes.LIBRARY]` of keybindings.py. -/
def fallbackModes : List Mode := [Mode.image, Mode.thumbnail, Mode.library]

/-- A reference to one `Bindings` object on the heap (Python object identity). -/
abbrev Ref := Nat

/-- The module state of keybindings.py: a heap of `Bindings` objects and the
module attribute `_registry`, a dict Mode → Bindings embedded as an
association list of references into the heap. -/
structure KBState where
  heap : List BMap
  registry : List (Mode × Ref)
deriving DecidableEq, Repr

/-- Read the `Bindings` object behind a reference (empty if dangling). -/
def KBState.deref (s : KBState) (r : Ref) : BMap :=
  (s.heap[r]?).getD []

/-- Mutate the `Bindings` object behind a reference in place. -/
def KBState.writeRef (s : KBState) (r : Ref) (t : BMap) : KBState :=
  { s with heap := s.heap.set r t }

/-- Python `_registry[mode]` as a lookup: the reference stored for `mode`. -/
def KBState.regRef (s : KBState) (m : Mode) : Option Ref :=
  (List.find? (fun p => p.1 == m) s.registry).map (fun p => p.2)

/-- The table contents the registry currently associates to a mode. -/
def KBState.visible (s : KBState) (m : Mode) : Option BMap :=
  (s.regRef m).map s.deref

/-- Well-formedness: every reference stored in `_registry` points into the
heap. Holds for the module's initial state and is preserved by every
operation, which only overwrites heap cells or appends fresh ones. -/
def KBState.WF (s : KBState) : Prop :=
  ∀ p ∈ s.registry, p.2 < s.heap.length

/-- Python errors the module can raise: `KeyError` from a `_registry`
lookup, and `cmdexc.CommandError` from `unbind`. -/
inductive KBErr
  | keyError (m : Mode)
  | commandError (msg : String)
deriving DecidableEq, Repr

/-! ## The module's functions -/

/-- `bind(keybinding, command, mode)`: `_registry[mode][keybinding] = command`. -/
def bind (s : KBState) (k : Key) (c : Command) (m : Mode) : Except KBErr KBState :=
  match s.regRef m with
  | none => .error (.keyError m)
  | some r => .ok (s.writeRef r ((s.deref r).insert k c))

/-- `unbind(keybinding, mode)`: for the three fallback modes the GLOBAL
table is checked (and emptied of the binding) first; otherwise the mode's
own table; else `CommandError("No binding found for '…'")`. -/
def unbind (s : KBState) (k : Key) (m : Mode) : Except KBErr KBState :=
  if fallbackModes.contains m then
    match s.regRef Mode.global with
    | none => .error (.keyError Mode.global)
    | some rg =>
      if (s.deref rg).hasKey k then .ok (s.writeRef rg ((s.deref rg).erase k))
      else
        match s.regRef m with
        | none => .error (.keyError m)
        | some rm =>
          if (s.deref rm).hasKey k then .ok (s.writeRef rm ((s.deref rm).erase k))
          else .error (.commandError ("No binding found for '" ++ k ++ "'"))
  else
    match s.regRef m with
    | none => .error (.keyError m)
    | some rm =>
      if (s.deref rm).hasKey k then .ok (s.writeRef rm ((s.deref rm).erase k))
      else .error (.commandError ("No binding found for '" ++ k ++ "'"))

/-- `get(mode)`: for the three fallback modes,
`_registry[mode] + _registry[Modes.GLOBAL]` builds a fresh `Bindings`
object (a fresh heap cell holding the merge); for every other mode the
registry's own object is returned. The returned value is the reference to
the object together with the (possibly extended) heap. -/
def get (s : KBState) (m : Mode) : Except KBErr (Ref × KBState) :=
  if fallbackModes.contains m then
    match s.regRef m with
    | none => .error (.keyError m)
    | some rm =>
      match s.regRef Mode.global with
      | none => .error (.keyError Mode.global)
      | some rg =>
        .ok (s.heap.length,
          { s with heap := s.heap ++ [BMap.union (s.deref rm) (s.deref rg)] })
  else
    match s.regRef m with
    | none => .error (.keyError m)
    | some rm => .ok (rm, s)

/-- `clear()`: `for bindings in _registry.values(): bindings.clear()` —
each registered `Bindings` object is emptied in place. -/
def clear (s : KBState) : KBState :=
  s.registry.foldl (fun acc p => acc.writeRef p.2 []) s

/-- `_registry = \x7bmode: Bindings() for mode in Modes\x7d`: one empty table
per mode. -/
def initState : KBState :=
  { heap := [[], [], [], [], []]
    registry := [(Mode.global, 0), (Mode.image, 1), (Mode.thumbnail, 2),
                 (Mode.library, 3), (Mode.command, 4)] }

/-! ## The settings registry (vimiv.api.settings)

The settings module itself is not among the sources; only its unit tests
(src/tests/unit/api/test_settings.py) are. The definitions below are
therefore modelled from the spec, constrained by those tests: the tests
pin the exception classes (`pytest.raises(ValueError, ...)`) and messages
("must be one of", "requires value of type"), and mock the strconvert
converters, so every operation below takes its converter as an argument. -/

/-- The class of a raised Python exception. -/
inductive ExcClass
  | valueError
  | typeError
  | keyError
deriving DecidableEq, Repr

/-- A raised Python exception: its class and its message. -/
structure PyError where
  cls : ExcClass
  msg : String
deriving DecidableEq, Repr

/-- Modelled from the spec: a Setting holds `name` (unique key), `default`
(immutable after construction) and `value` (current, mutable). -/
structure Setting (α : Type) where
  name : String
  default : α
  value : α
deriving DecidableEq, Repr

/-- Construction with a literal default: `value` starts out equal to
`default`. -/
def Setting.make (name : String) (d : α) : Setting α :=
  { name := name, default := d, value := d }

/-- `is_default()`: structural equality of `value` and `default`. -/
def Setting.is_default [DecidableEq α] (s : Setting α) : Bool :=
  decide (s.value = s.default)

/-- `reset()`: sets `value` back to `default`. -/
def Setting.reset (s : Setting α) : Setting α :=
  { s with value := s.default }

/-- A mutating setting operation in Python either raises (the object is
left unchanged) or succeeds (the object's `value` is replaced): the first
component is the raised exception, if any, and the second the object
afterwards. -/
abbrev SettingRes (α : Type) := Option PyError × Setting α

abbrev BoolSetting := Setting Bool

abbrev IntSetting := Setting Int

/-- Floats are modelled as rationals: the properties claimed of Float
settings are the algebraic ones shared with exact arithmetic. -/
abbrev FloatSetting := Setting Rat

abbrev StrSetting := Setting String

abbrev ThumbnailSizeSetting := Setting Int

/-- A Python value passed to `StrSetting.override`, which may be text or
not (the unit test passes the int 12). -/
inductive PyIn
  | txt (t : String)
  | int (n : Int)
  | pyNone
deriving DecidableEq, Repr

/-- Whether a `PyIn` is text (`isinstance(value, str)`). -/
def PyIn.isText : PyIn → Bool
  | .txt _ => true
  | _ => false

/-- Modelled from the spec: `BoolSetting.override` parses with
`strconvert.to_bool` and replaces `value` on success. -/
def BoolSetting.override (s : BoolSetting)
    (to_bool : String → Except PyError Bool) (raw : String) : SettingRes Bool :=
  match to_bool raw with
  | .error e => (some e, s)
  | .ok v => (none, { s with value := v })

/-- Modelled from the spec: `IntSetting.override` parses with
`strconvert.to_int` and replaces `value` on success. -/
def IntSetting.override (s : IntSetting)
    (to_int : String → Except PyError Int) (raw : String) : SettingRes Int :=
  match to_int raw with
  | .error e => (some e, s)
  | .ok v => (none, { s with value := v })

/-- Modelled from the spec: `IntSetting.add` parses with the same converter
as `override`, then adds into the existing `value`. -/
def IntSetting.add (s : IntSetting)
    (to_int : String → Except PyError Int) (raw : String) : SettingRes Int :=
  match to_int raw with
  | .error e => (some e, s)
  | .ok n => (none, { s with value := s.value + n })

/-- Modelled from the spec: `IntSetting.multiply` parses with the same
converter as `override`, then multiplies into the existing `value`. -/
def IntSetting.multiply (s : IntSetting)
    (to_int : String → Except PyError Int) (raw : String) : SettingRes Int :=
  match to_int raw with
  | .error e => (some e, s)
  | .ok n => (none, { s with value := s.value * n })

/-- Modelled from the spec: `FloatSetting.override` parses with
`strconvert.to_float` and replaces `value` on success. -/
def FloatSetting.override (s : FloatSetting)
    (to_float : String → Except PyError Rat) (raw : String) : SettingRes Rat :=
  match to_float raw with
  | .error e => (some e, s)
  | .ok v => (none, { s with value := v })

/-- Modelled from the spec: `FloatSetting.add` parses with the same
converter as `override`, then adds into the existing `value`. -/
def FloatSetting.add (s : FloatSetting)
    (to_float : String → Except PyError Rat) (raw : String) : SettingRes Rat :=
  match to_float raw with
  | .error e => (some e, s)
  | .ok n => (none, { s with value := s.value + n })

/-- Modelled from the spec: `FloatSetting.multiply` parses with the same
converter as `override`, then multiplies into the existing `value`. -/
def FloatSetting.multiply (s : FloatSetting)
    (to_float : String → Except PyError Rat) (raw : String) : SettingRes Rat :=
  match to_float raw with
  | .error e => (some e, s)
  | .ok n => (none, { s with value := s.value * n })

/-- Modelled from the spec: `StrSetting.override` rejects non-text input;
the unit test pins the exception class (`ValueError`) and the message
fragment "requires value of type". -/
def StrSetting.override (s : StrSetting) (v : PyIn) : SettingRes String :=
  match v with
  | .txt t => (none, { s with value := t })
  | _ => (some { cls := ExcClass.valueError
                 msg := "Setting " ++ s.name ++ " requires value of type str" }, s)

/-- The fixed ordered set of allowed thumbnail sizes. -/
def ALLOWED_VALUES : List Int := [64, 128, 256, 512]

/-- Modelled from the spec: `ThumbnailSizeSetting.override` parses with
`strconvert.to_int` and rejects a parsed value outside the allowed set
with a `ValueError` naming the set (the unit test pins the class and the
fragment "must be one of"). -/
def ThumbnailSizeSetting.override (s : ThumbnailSizeSetting)
    (to_int : String → Except PyError Int) (raw : String) : SettingRes Int :=
  match to_int raw with
  | .error e => (some e, s)
  | .ok n =>
    if ALLOWED_VALUES.contains n then (none, { s with value := n })
    else (some { cls := ExcClass.valueError
                 msg := "Setting " ++ s.name ++ " must be one of 64, 128, 256, 512" }, s)

/-- Modelled from the spec: `increase()` moves `value` to the next entry of
the fixed ordered size set, clamping at the last entry. -/
def ThumbnailSizeSetting.increase (s : ThumbnailSizeSetting) : ThumbnailSizeSetting :=
  let idx := ALLOWED_VALUES.findIdx (fun x => x == s.value)
  let idx2 := min (idx + 1) (ALLOWED_VALUES.length - 1)
  { s with value := (ALLOWED_VALUES[idx2]?).getD s.value }

/-- Modelled from the spec: `decrease()` moves `value` to the previous
entry of the fixed ordered size set, clamping at the first entry (the
truncated subtraction on indices mirrors `max(index - 1, 0)`). -/
def ThumbnailSizeSetting.decrease (s : ThumbnailSizeSetting) : ThumbnailSizeSetting :=
  let idx := ALLOWED_VALUES.findIdx (fun x => x == s.value)
  let idx2 := idx - 1
  { s with value := (ALLOWED_VALUES[idx2]?).getD s.value }

/-! ## Concrete states used by counterexamples and witnesses -/

/-- The keybinding state after `bind("j", "pan down", GLOBAL)` and
`bind("j", "scroll down", THUMBNAIL)` from the initial state: the sequence
"j" is bound both in THUMBNAIL's own table and in GLOBAL. -/
def stateJ : KBState :=
  { heap := [[("j", "pan down")], [], [("j", "scroll down")], [], []]
    registry := initState.registry }

/-! ## Supporting lemmas on the bindings-table operations -/

theorem BMap.find_cons (kv : Key × Command) (m : BMap) (k : Key) :
    BMap.find (kv :: m) k = if kv.1 == k then some kv.2 else BMap.find m k := by
  cases h : kv.1 == k <;> simp [BMap.find, List.find?_cons, h]

theorem BMap.find_append (x y : BMap) (k : Key) :
    BMap.find (x ++ y) k = (BMap.find x k).or (BMap.find y k) := by
  unfold BMap.find
  rw [List.find?_append]
  cases List.find? (fun kv => kv.1 == k) x <;> simp

theorem BMap.find_map_value (a : BMap) (g : Key × Command → Command) (k : Key) :
    BMap.find (a.map (fun kv => (kv.1, g kv))) k =
      (List.find? (fun kv => kv.1 == k) a).map g := by
  induction a with
  | nil => rfl
  | cons hd tl ih =>
    cases h : hd.1 == k with
    | true =>
      simp only [List.map_cons, BMap.find, List.find?_cons, h]
      rfl
    | false =>
      simp only [List.map_cons, BMap.find, List.find?_cons, h] at ih ⊢
      exact ih

theorem BMap.find_filter_of_none (a b : BMap) (k : Key)
    (h : BMap.find a k = none) :
    BMap.find (b.filter (fun kv => (BMap.find a kv.1).isNone)) k = BMap.find b k := by
  induction b with
  | nil => rfl
  | cons hd tl ih =>
    cases hk : hd.1 == k with
    | true =>
      have hk' : hd.1 = k := eq_of_beq hk
      rw [List.filter_cons]
      have : (BMap.find a hd.1).isNone = true := by rw [hk', h]; rfl
      rw [if_pos this, BMap.find_cons, BMap.find_cons, if_pos hk, if_pos hk]
    | false =>
      rw [List.filter_cons]
      by_cases hp : (BMap.find a hd.1).isNone = true
      · rw [if_pos hp, BMap.find_cons, BMap.find_cons, if_neg (by simp [hk]),
          if_neg (by simp [hk])]
        exact ih
      · rw [if_neg hp, BMap.find_cons, if_neg (by simp [hk])]
        exact ih

theorem BMap.find_union (a b : BMap) (k : Key) :
    BMap.find (BMap.union a b) k = (BMap.find b k).or (BMap.find a k) := by
  unfold BMap.union
  rw [BMap.find_append, BMap.find_map_value]
  cases ha : BMap.find a k with
  | none =>
    have hfind : List.find? (fun kv => kv.1 == k) a = none := by
      unfold BMap.find at ha
      cases hf : List.find? (fun kv => kv.1 == k) a with
      | none => rfl
      | some kv => rw [hf] at ha; simp at ha
    rw [hfind, BMap.find_filter_of_none a b k ha]
    simp
  | some v =>
    unfold BMap.find at ha
    obtain ⟨kv, hkv, hv⟩ := Option.map_eq_some'.mp ha
    have hp := List.find?_some hkv
    have hbeq : kv.1 = k := eq_of_beq hp
    rw [hkv]
    simp only [Option.map_some']
    rw [hbeq, hv]
    cases BMap.find b k <;> rfl

theorem BMap.find_erase_self (m : BMap) (k : Key) :
    BMap.find (BMap.erase m k) k = none := by
  unfold BMap.find BMap.erase
  rw [Option.map_eq_none']
  rw [List.find?_eq_none]
  intro kv hkv
  have := (List.mem_filter.mp hkv).2
  simp only [bne_iff_ne, ne_eq, decide_eq_true_eq] at this
  simp [this]

theorem BMap.hasKey_erase_self (m : BMap) (k : Key) :
    BMap.hasKey (BMap.erase m k) k = false := by
  unfold BMap.hasKey
  rw [BMap.find_erase_self]
  rfl

theorem BMap.partial_match_nil (keys : String) :
    BMap.partial_match [] keys = false := by
  unfold BMap.partial_match
  split <;> rfl

/-- A registry lookup that succeeds names an entry of the registry list. -/
theorem KBState.regRef_mem (s : KBState) (m : Mode) (r : Ref)
    (h : s.regRef m = some r) : (m, r) ∈ s.registry := by
  unfold KBState.regRef at h
  obtain ⟨p, hp, hr⟩ := Option.map_eq_some'.mp h
  have hb := List.find?_some hp
  have h1 : p.1 = m := eq_of_beq hb
  have h2 := List.mem_of_find?_eq_some hp
  have : p = (m, r) := by
    cases p
    simp only at h1 hr
    rw [h1, hr]
  rw [← this]
  exact h2

theorem KBState.deref_writeRef_self (s : KBState) (r : Ref) (t : BMap)
    (h : r < s.heap.length) : (s.writeRef r t).deref r = t := by
  unfold KBState.deref KBState.writeRef
  simp [List.getElem?_set_self h]

theorem KBState.deref_writeRef_ne (s : KBState) (r r' : Ref) (t : BMap)
    (h : r ≠ r') : (s.writeRef r t).deref r' = s.deref r' := by
  unfold KBState.deref KBState.writeRef
  simp [List.getElem?_set_ne h]

/-- The `clear` fold never touches the registry list. -/
theorem clearFold_registry (l : List (Mode × Ref)) (s : KBState) :
    (l.foldl (fun acc p => acc.writeRef p.2 []) s).registry = s.registry := by
  induction l generalizing s with
  | nil => rfl
  | cons hd tl ih => rw [List.foldl_cons, ih]; rfl

/-- The `clear` fold never changes the heap's length. -/
theorem clearFold_heap_length (l : List (Mode × Ref)) (s : KBState) :
    (l.foldl (fun acc p => acc.writeRef p.2 []) s).heap.length = s.heap.length := by
  induction l generalizing s with
  | nil => rfl
  | cons hd tl ih =>
    rw [List.foldl_cons, ih]
    exact List.length_set s.heap hd.2 []

/-- A heap cell already holding the empty table still holds it after the
`clear` fold. -/
theorem clearFold_keeps_empty (l : List (Mode × Ref)) (s : KBState) (r : Ref)
    (h : s.heap[r]? = some []) :
    (l.foldl (fun acc p => acc.writeRef p.2 []) s).heap[r]? = some [] := by
  induction l generalizing s with
  | nil => exact h
  | cons hd tl ih =>
    rw [List.foldl_cons]
    refine ih _ ?_
    show (s.heap.set hd.2 [])[r]? = some []
    rw [List.getElem?_set]
    split
    · split
      · rfl
      · rename_i h1 h2
        rw [h1] at h2
        exact absurd h (by simp [List.getElem?_eq_none (Nat.le_of_not_lt h2)])
    · exact h

/-- After the `clear` fold, every cell written by an entry of the list is
empty. -/
theorem clearFold_empties (l : List (Mode × Ref)) (s : KBState)
    (p : Mode × Ref) (hp : p ∈ l) (hlen : p.2 < s.heap.length) :
    (l.foldl (fun acc p => acc.writeRef p.2 []) s).heap[p.2]? = some [] := by
  induction l generalizing s with
  | nil => cases hp
  | cons hd tl ih =>
    rw [List.foldl_cons]
    rcases List.mem_cons.mp hp with heq | htl
    · subst heq
      refine clearFold_keeps_empty tl _ p.2 ?_
      show (s.heap.set p.2 [])[p.2]? = some []
      exact List.getElem?_set_self hlen
    · refine ih (s := s.writeRef hd.2 []) htl ?_
      show p.2 < (s.heap.set hd.2 []).length
      rw [List.length_set]
      exact hlen

/-- The initial registry is well formed. -/
theorem initState_WF : initState.WF := by
  intro p hp
  simp only [initState, List.mem_cons, List.not_mem_nil, or_false] at hp
  rcases hp with h | h | h | h | h <;> (subst h; decide)

/-- The concrete two-binding state is well formed. -/
theorem stateJ_WF : stateJ.WF := by
  intro p hp
  simp only [stateJ, initState, List.mem_cons, List.not_mem_nil, or_false] at hp
  rcases hp with h | h | h | h | h <;> (subst h; decide)

/-! ## The claims -/

/-- C6: for every bindings table (a mode's own table) and key string,
`partial_match(keys)` is true iff `keys` is non-empty and a
proper-or-full prefix of at least one bound key sequence of that table;
in particular `partial_match("")` is false. The check is a function of
the one table it is called on, so it never consults the GLOBAL fallback
table. -/
theorem C6_partial_match_iff_prefix (t : BMap) (keys : String) :
    (t.partial_match keys = true ↔
      keys ≠ "" ∧ ∃ kv ∈ t, keys.isPrefixOf kv.1 = true)
    ∧ t.partial_match "" = false := by
  constructor
  · unfold BMap.partial_match
    by_cases h : keys = ""
    · simp [h]
    · simp [h, List.any_eq_true]
  · unfold BMap.partial_match
    rw [if_pos rfl]

/-- C1 counterexample: in a state where THUMBNAIL's own table binds
"j" → "scroll down" and GLOBAL binds "j" → "pan down", `get(THUMBNAIL)`
resolves "j" to "pan down": the GLOBAL entry, not the mode-specific one,
wins the collision, refuting the claimed precedence. -/
theorem C1_cex_global_wins_collision :
    (∃ r s', get stateJ Mode.thumbnail = Except.ok (r, s') ∧
      (s'.deref r).find "j" = some "pan down") ∧
    (stateJ.visible Mode.thumbnail).map (fun t => t.find "j") =
      some (some "scroll down") ∧
    (stateJ.visible Mode.global).map (fun t => t.find "j") =
      some (some "pan down") ∧
    ("pan down" : String) ≠ "scroll down" := by
  exact ⟨⟨5, _, rfl, rfl⟩, rfl, rfl, by decide⟩

/-- C1 (amended): for the three fallback modes, `get(mode)` returns a
fresh table that is the union of the mode's own table and GLOBAL with the
GLOBAL entry taking precedence on a key collision; for every other mode it
returns the registry's own table unchanged. -/
theorem C1_get_effective (s : KBState) (m : Mode) (r : Ref) (s' : KBState)
    (h : get s m = Except.ok (r, s')) :
    (fallbackModes.contains m = true →
      ∀ k, (s'.deref r).find k =
        (((s.visible Mode.global).getD []).find k).or
          (((s.visible m).getD []).find k))
    ∧ (fallbackModes.contains m = false → s' = s ∧ s.regRef m = some r) := by
  unfold get at h
  cases hf : fallbackModes.contains m with
  | true =>
    rw [hf] at h
    simp only [if_true] at h
    refine ⟨fun _ k => ?_, fun hc => by simp [hf] at hc⟩
    cases hm : s.regRef m with
    | none => rw [hm] at h; cases h
    | some rm =>
      rw [hm] at h
      cases hg : s.regRef Mode.global with
      | none => rw [hg] at h; cases h
      | some rg =>
        rw [hg] at h
        cases h
        show (((s.heap ++
            [BMap.union (s.deref rm) (s.deref rg)])[s.heap.length]?).getD []).find k = _
        rw [List.getElem?_concat_length]
        show (BMap.union (s.deref rm) (s.deref rg)).find k = _
        rw [BMap.find_union]
        unfold KBState.visible
        rw [hm, hg]
        rfl
  | false =>
    rw [hf] at h
    simp only [if_false, Bool.false_eq_true] at h
    refine ⟨fun hc => by simp [hf] at hc, fun _ => ?_⟩
    cases hm : s.regRef m with
    | none => rw [hm] at h; cases h
    | some rm =>
      rw [hm] at h
      cases h
      exact ⟨rfl, rfl⟩

/-- C1 witness: the amended theorem applied to the concrete two-binding
state at mode THUMBNAIL and key "j". -/
theorem C1_get_effective_witness :
    BMap.find
      (KBState.deref
        { stateJ with
          heap := stateJ.heap ++ [BMap.union (stateJ.deref 2) (stateJ.deref 0)] }
        5)
      "j" =
      (((stateJ.visible Mode.global).getD []).find "j").or
        (((stateJ.visible Mode.thumbnail).getD []).find "j") :=
  (C1_get_effective stateJ Mode.thumbnail 5 _ rfl).1 rfl "j"

/-- C2 counterexample: in a state where "j" is bound both in THUMBNAIL's
own table and in GLOBAL, `unbind("j", THUMBNAIL)` removes the GLOBAL
entry and leaves the mode's own entry in place — the opposite of the
claimed removal precedence. -/
theorem C2_cex_global_removed_first :
    ∃ s', unbind stateJ "j" Mode.thumbnail = Except.ok s' ∧
      ((s'.visible Mode.thumbnail).getD []).hasKey "j" = true ∧
      ((s'.visible Mode.global).getD []).hasKey "j" = false := by
  exact ⟨_, rfl, rfl, rfl⟩

/-- C2 (amended): for a fallback-enabled mode, `unbind` first checks the
GLOBAL table: if the sequence is bound there it is removed from GLOBAL
(even when the mode's own table also binds it, in which case the own entry
survives); only otherwise is the mode's own table consulted and the entry
removed there. For flat modes only the mode's own table is checked. If the
sequence is in neither applicable table, `unbind` fails with the
"binding not found" error. -/
theorem C2_unbind_precedence (s : KBState) (k : Key) (m : Mode) (rg rm : Ref)
    (hg : s.regRef Mode.global = some rg) (hm : s.regRef m = some rm)
    (hlg : rg < s.heap.length) (hne : rg ≠ rm) :
    (fallbackModes.contains m = true → (s.deref rg).hasKey k = true →
      unbind s k m = Except.ok (s.writeRef rg ((s.deref rg).erase k)) ∧
      ((s.writeRef rg ((s.deref rg).erase k)).deref rg).hasKey k = false ∧
      (s.writeRef rg ((s.deref rg).erase k)).deref rm = s.deref rm)
    ∧ (fallbackModes.contains m = true → (s.deref rg).hasKey k = false →
        (s.deref rm).hasKey k = true →
      unbind s k m = Except.ok (s.writeRef rm ((s.deref rm).erase k)) ∧
      (s.writeRef rm ((s.deref rm).erase k)).deref rg = s.deref rg)
    ∧ (fallbackModes.contains m = false → (s.deref rm).hasKey k = true →
      unbind s k m = Except.ok (s.writeRef rm ((s.deref rm).erase k)))
    ∧ (fallbackModes.contains m = true → (s.deref rg).hasKey k = false →
        (s.deref rm).hasKey k = false →
      unbind s k m =
        Except.error (.commandError ("No binding found for '" ++ k ++ "'")))
    ∧ (fallbackModes.contains m = false → (s.deref rm).hasKey k = false →
      unbind s k m =
        Except.error (.commandError ("No binding found for '" ++ k ++ "'"))) := by
  refine ⟨fun hf hkg => ?_, fun hf hkg hkm => ?_, fun hf hkm => ?_,
    fun hf hkg hkm => ?_, fun hf hkm => ?_⟩
  · refine ⟨?_, ?_, ?_⟩
    · unfold unbind
      rw [hf, if_pos rfl, hg]
      simp [hkg]
    · rw [KBState.deref_writeRef_self s rg _ hlg]
      exact BMap.hasKey_erase_self _ k
    · exact KBState.deref_writeRef_ne s rg rm _ hne
  · refine ⟨?_, ?_⟩
    · unfold unbind
      rw [hf, if_pos rfl, hg]
      simp [hkg, hm, hkm]
    · exact KBState.deref_writeRef_ne s rm rg _ (fun hrr => hne hrr.symm)
  · unfold unbind
    rw [hf, if_neg (by simp), hm]
    simp [hkm]
  · unfold unbind
    rw [hf, if_pos rfl, hg]
    simp [hkg, hm, hkm]
  · unfold unbind
    rw [hf, if_neg (by simp), hm]
    simp [hkm]

/-- C2 witness: the amended theorem applied to the concrete two-binding
state at mode THUMBNAIL and key "j" (first case: "j" is bound in GLOBAL,
so the GLOBAL entry is removed and THUMBNAIL's own entry survives). -/
theorem C2_unbind_precedence_witness :
    unbind stateJ "j" Mode.thumbnail =
      Except.ok (stateJ.writeRef 0 ((stateJ.deref 0).erase "j")) ∧
    ((stateJ.writeRef 0 ((stateJ.deref 0).erase "j")).deref 0).hasKey "j" = false ∧
    (stateJ.writeRef 0 ((stateJ.deref 0).erase "j")).deref 2 = stateJ.deref 2 :=
  (C2_unbind_precedence stateJ "j" Mode.thumbnail 0 2 rfl rfl (by decide)
    (by decide)).1 rfl rfl

/-- C9: for a fallback-enabled mode, `get` returns a freshly allocated
table object, so writing any contents through the returned reference
leaves every registry-visible table (and the registry itself) unchanged;
for every other mode, `get` returns the registry's own table object
unchanged, so contents written through the returned reference are seen by
every subsequent `get` of that mode. -/
theorem C9_get_freshness (s : KBState) (hWF : s.WF) (m : Mode) (r : Ref)
    (s' : KBState) (h : get s m = Except.ok (r, s')) :
    (fallbackModes.contains m = true →
      s'.registry = s.registry ∧
      ∀ t : BMap, ∀ m' r', s.regRef m' = some r' →
        (s'.writeRef r t).deref r' = s.deref r' ∧
        (s'.writeRef r t).registry = s.registry)
    ∧ (fallbackModes.contains m = false →
      s' = s ∧ s.regRef m = some r ∧
      ∀ t : BMap, (s.writeRef r t).deref r = t ∧
        get (s.writeRef r t) m = Except.ok (r, s.writeRef r t)) := by
  unfold get at h
  cases hf : fallbackModes.contains m with
  | true =>
    rw [hf] at h
    simp only [if_true] at h
    refine ⟨fun _ => ?_, fun hc => by simp [hf] at hc⟩
    cases hm : s.regRef m with
    | none => rw [hm] at h; cases h
    | some rm =>
      rw [hm] at h
      cases hg : s.regRef Mode.global with
      | none => rw [hg] at h; cases h
      | some rg =>
        rw [hg] at h
        cases h
        refine ⟨rfl, fun t m' r' hr' => ?_⟩
        have hmem := s.regRef_mem m' r' hr'
        have hlt : r' < s.heap.length := hWF _ hmem
        have hne : s.heap.length ≠ r' := fun he => absurd hlt (by rw [← he]; simp)
        constructor
        · show ((((s.heap ++ [BMap.union (s.deref rm) (s.deref rg)]).set
              s.heap.length t)[r']?).getD []) = s.deref r'
          rw [List.getElem?_set_ne hne, List.getElem?_append_left hlt]
          rfl
        · rfl
  | false =>
    rw [hf] at h
    simp only [if_false, Bool.false_eq_true] at h
    refine ⟨fun hc => by simp [hf] at hc, fun _ => ?_⟩
    cases hm : s.regRef m with
    | none => rw [hm] at h; cases h
    | some rm =>
      rw [hm] at h
      cases h
      have hm' : s.regRef m = some r := hm
      have hmem := s.regRef_mem m r hm'
      have hlt : r < s.heap.length := hWF _ hmem
      refine ⟨rfl, rfl, fun t => ⟨KBState.deref_writeRef_self s r t hlt, ?_⟩⟩
      unfold get
      rw [hf]
      simp only [if_false, Bool.false_eq_true]
      have hrr : (s.writeRef r t).regRef m = s.regRef m := rfl
      rw [hrr, hm']

/-- C9 witness: the theorem applied to the initial state, once at the
fallback mode THUMBNAIL (writing through the fresh table leaves the
registry's THUMBNAIL table unchanged) and once at the flat mode COMMAND
(writing through the returned table is seen by the next `get`). -/
theorem C9_get_freshness_witness :
    ((({ initState with heap := initState.heap ++ [BMap.union (initState.deref 2)
          (initState.deref 0)] } : KBState).writeRef 5
        [("x", "quit")]).deref 2 = initState.deref 2) ∧
    (get (initState.writeRef 4 [("x", "quit")]) Mode.command =
      Except.ok (4, initState.writeRef 4 [("x", "quit")])) := by
  constructor
  · exact (((C9_get_freshness initState initState_WF Mode.thumbnail 5 _ rfl).1
      rfl).2 [("x", "quit")] Mode.thumbnail 2 rfl).1
  · exact (((C9_get_freshness initState initState_WF Mode.command 4 initState
      rfl).2 rfl).2.2 [("x", "quit")]).2

/-- C10: `clear()` empties every registered table in place: the registry
keeps its entry for every mode, every registered table is empty
afterwards, `get` still succeeds for every registered mode (for both
fallback and flat modes the result is the empty mapping), and
`partial_match` is false for every key string on every registered table. -/
theorem C10_clear_empties (s : KBState) (hWF : s.WF) :
    (clear s).registry = s.registry
    ∧ (∀ m r, s.regRef m = some r → (clear s).deref r = [])
    ∧ (∀ m, (s.regRef m).isSome → (s.regRef Mode.global).isSome →
        ∃ r s', get (clear s) m = Except.ok (r, s') ∧ s'.deref r = [])
    ∧ (∀ m r keys, s.regRef m = some r →
        ((clear s).deref r).partial_match keys = false) := by
  have hreg : (clear s).registry = s.registry := clearFold_registry s.registry s
  have hregRef : ∀ m', (clear s).regRef m' = s.regRef m' := by
    intro m'
    unfold KBState.regRef
    rw [hreg]
  have hempty : ∀ m r, s.regRef m = some r → (clear s).deref r = [] := by
    intro m r hr
    have hmem := s.regRef_mem m r hr
    have hlt : r < s.heap.length := hWF _ hmem
    have := clearFold_empties s.registry s (m, r) hmem hlt
    unfold KBState.deref
    unfold clear
    rw [this]
    rfl
  refine ⟨hreg, hempty, fun m hm hgl => ?_, fun m r keys hr => ?_⟩
  · cases hm' : s.regRef m with
    | none => rw [hm'] at hm; cases hm
    | some rm =>
      cases hg' : s.regRef Mode.global with
      | none => rw [hg'] at hgl; cases hgl
      | some rg =>
        unfold get
        cases hf : fallbackModes.contains m with
        | true =>
          rw [if_pos rfl]
          rw [hregRef m, hm', hregRef Mode.global, hg']
          refine ⟨(clear s).heap.length, _, rfl, ?_⟩
          show ((((clear s).heap ++
            [BMap.union ((clear s).deref rm) ((clear s).deref rg)])[(clear s).heap.length]?).getD []) = []
          rw [List.getElem?_concat_length]
          show BMap.union ((clear s).deref rm) ((clear s).deref rg) = []
          rw [hempty m rm hm', hempty Mode.global rg hg']
          rfl
        | false =>
          rw [if_neg (by simp [hf])]
          rw [hregRef m, hm']
          exact ⟨rm, clear s, rfl, hempty m rm hm'⟩
  · rw [hempty m r hr]
    exact BMap.partial_match_nil keys

/-- C10 witness: the theorem applied to the two-binding state — after
`clear()` the THUMBNAIL table is empty and `get(THUMBNAIL)` returns the
empty mapping. -/
theorem C10_clear_empties_witness :
    (clear stateJ).deref 2 = [] ∧
    (∃ r s', get (clear stateJ) Mode.thumbnail = Except.ok (r, s') ∧
      s'.deref r = []) ∧
    ((clear stateJ).deref 0).partial_match "j" = false := by
  have h := C10_clear_empties stateJ stateJ_WF
  exact ⟨h.2.1 Mode.thumbnail 2 rfl, h.2.2.1 Mode.thumbnail rfl rfl,
    h.2.2.2 Mode.global 0 "j" rfl⟩

/-- C3 counterexample: overriding the string setting of the unit test with
the non-text value 12 raises an error of class ValueError (the class the
unit test expects with `pytest.raises(ValueError, ...)`), not a
TypeError-class error as claimed; the setting is left unchanged. -/
theorem C3_cex_valueerror_not_typeerror :
    StrSetting.override (Setting.make "string" "default") (PyIn.int 12) =
      (some { cls := ExcClass.valueError
              msg := "Setting string requires value of type str" },
        Setting.make "string" "default")
    ∧ ExcClass.valueError ≠ ExcClass.typeError := by
  exact ⟨rfl, by decide⟩

/-- C3 (amended): for every StrSetting and every non-text input, `override`
fails with the TypeMismatch error of the spec's taxonomy — raised as a
ValueError-class exception whose message names "requires value of type" —
and the setting's value remains the previous value. -/
theorem C3_override_nontext (s : StrSetting) (v : PyIn) (h : v.isText = false) :
    StrSetting.override s v =
      (some { cls := ExcClass.valueError
              msg := "Setting " ++ s.name ++ " requires value of type str" }, s) := by
  cases v with
  | txt t => simp [PyIn.isText] at h
  | int n => rfl
  | pyNone => rfl

/-- C3 witness: the amended theorem applied to the unit test's setting and
input. -/
theorem C3_override_nontext_witness :
    StrSetting.override (Setting.make "string" "default") (PyIn.int 12) =
      (some { cls := ExcClass.valueError
              msg := "Setting string requires value of type str" },
        Setting.make "string" "default") :=
  C3_override_nontext (Setting.make "string" "default") (PyIn.int 12) rfl

/-- C4: for every ThumbnailSizeSetting and every input whose parsed value
is not one of \x7b64, 128, 256, 512\x7d, `override` fails with a
DomainViolation — a ValueError-class error whose message names the allowed
set — and the setting is returned unchanged. -/
theorem C4_thumbnail_domain (s : ThumbnailSizeSetting)
    (to_int : String → Except PyError Int) (raw : String) (n : Int)
    (hc : to_int raw = Except.ok n) (hn : n ∉ ALLOWED_VALUES) :
    ThumbnailSizeSetting.override s to_int raw =
      (some { cls := ExcClass.valueError
              msg := "Setting " ++ s.name ++ " must be one of 64, 128, 256, 512" },
        s) := by
  unfold ThumbnailSizeSetting.override
  rw [hc]
  simp [hn]

/-- C4 witness: the unit test's scenario — a converter result of 13 on a
setting with value 128. -/
theorem C4_thumbnail_domain_witness :
    ThumbnailSizeSetting.override (Setting.make "thumb" 128)
      (fun _ => Except.ok 13) "any" =
      (some { cls := ExcClass.valueError
              msg := "Setting thumb must be one of 64, 128, 256, 512" },
        Setting.make "thumb" 128) :=
  C4_thumbnail_domain (Setting.make "thumb" 128) (fun _ => Except.ok 13) "any"
    13 rfl (by decide)

/-- C5: `increase()` moves the value to the next entry of the ordered set
\x7b64, 128, 256, 512\x7d and `decrease()` to the previous one; at the upper
boundary 512 `increase()` leaves 512 and at the lower boundary 64
`decrease()` leaves 64 (clamp, not wrap, not error). -/
theorem C5_thumbnail_steps (s : ThumbnailSizeSetting) :
    (s.value = 64 → (ThumbnailSizeSetting.increase s).value = 128 ∧
      (ThumbnailSizeSetting.decrease s).value = 64)
    ∧ (s.value = 128 → (ThumbnailSizeSetting.increase s).value = 256 ∧
      (ThumbnailSizeSetting.decrease s).value = 64)
    ∧ (s.value = 256 → (ThumbnailSizeSetting.increase s).value = 512 ∧
      (ThumbnailSizeSetting.decrease s).value = 128)
    ∧ (s.value = 512 → (ThumbnailSizeSetting.increase s).value = 512 ∧
      (ThumbnailSizeSetting.decrease s).value = 256) := by
  obtain ⟨nm, d, v⟩ := s
  refine ⟨fun h => ?_, fun h => ?_, fun h => ?_, fun h => ?_⟩ <;>
    (simp only at h; subst h; constructor <;> rfl)

/-- C5 witness: the unit tests' scenarios at value 128 and the 512 clamp. -/
theorem C5_thumbnail_steps_witness :
    (ThumbnailSizeSetting.increase (Setting.make "thumb" 128)).value = 256 ∧
    (ThumbnailSizeSetting.increase { Setting.make "thumb" 128 with
      value := 512 }).value = 512 ∧
    (ThumbnailSizeSetting.decrease { Setting.make "thumb" 128 with
      value := 64 }).value = 64 := by
  refine ⟨?_, ?_, ?_⟩
  · exact ((C5_thumbnail_steps (Setting.make "thumb" 128)).2.1 rfl).1
  · exact ((C5_thumbnail_steps { Setting.make "thumb" 128 with
      value := 512 }).2.2.2 rfl).1
  · exact ((C5_thumbnail_steps { Setting.make "thumb" 128 with
      value := 64 }).1 rfl).2

/-- C7: for every Setting variant, `is_default()` holds iff `value` equals
`default`: it is true right after construction, every successful override
replaces `value` and leaves `default` untouched (so `is_default()` is
false when the new value differs from the default), and it is true again
after `reset()`. -/
theorem C7_is_default (α : Type) [DecidableEq α] (nm : String) (d : α) :
    ((∀ s : Setting α, s.is_default = true ↔ s.value = s.default)
      ∧ (Setting.make nm d).is_default = true
      ∧ (∀ s : Setting α, (Setting.reset s).is_default = true))
    ∧ (∀ (s : BoolSetting) conv raw v, conv raw = Except.ok v →
        BoolSetting.override s conv raw = (none, { s with value := v })
        ∧ (v ≠ s.default → (BoolSetting.override s conv raw).2.is_default = false))
    ∧ (∀ (s : IntSetting) conv raw v, conv raw = Except.ok v →
        IntSetting.override s conv raw = (none, { s with value := v })
        ∧ (v ≠ s.default → (IntSetting.override s conv raw).2.is_default = false))
    ∧ (∀ (s : FloatSetting) conv raw v, conv raw = Except.ok v →
        FloatSetting.override s conv raw = (none, { s with value := v })
        ∧ (v ≠ s.default → (FloatSetting.override s conv raw).2.is_default = false))
    ∧ (∀ (s : StrSetting) t,
        StrSetting.override s (PyIn.txt t) = (none, { s with value := t })
        ∧ (t ≠ s.default → (StrSetting.override s (PyIn.txt t)).2.is_default = false))
    ∧ (∀ (s : ThumbnailSizeSetting) conv raw n, conv raw = Except.ok n →
        n ∈ ALLOWED_VALUES →
        ThumbnailSizeSetting.override s conv raw = (none, { s with value := n })
        ∧ (n ≠ s.default →
          (ThumbnailSizeSetting.override s conv raw).2.is_default = false)) := by
  refine ⟨⟨fun s => ?_, ?_, fun s => ?_⟩, ?_, ?_, ?_, ?_, ?_⟩
  · unfold Setting.is_default
    exact decide_eq_true_iff
  · unfold Setting.make Setting.is_default
    simp
  · unfold Setting.reset Setting.is_default
    simp
  · intro s conv raw v hc
    unfold BoolSetting.override
    rw [hc]
    refine ⟨rfl, fun hv => ?_⟩
    unfold Setting.is_default
    simpa using hv
  · intro s conv raw v hc
    unfold IntSetting.override
    rw [hc]
    refine ⟨rfl, fun hv => ?_⟩
    unfold Setting.is_default
    simpa using hv
  · intro s conv raw v hc
    unfold FloatSetting.override
    rw [hc]
    refine ⟨rfl, fun hv => ?_⟩
    unfold Setting.is_default
    simpa using hv
  · intro s t
    have h1 : StrSetting.override s (PyIn.txt t) = (none, { s with value := t }) := rfl
    refine ⟨h1, fun hv => ?_⟩
    rw [h1]
    unfold Setting.is_default
    simpa using hv
  · intro s conv raw n hc hn
    have h1 : ThumbnailSizeSetting.override s conv raw =
        (none, { s with value := n }) := by
      unfold ThumbnailSizeSetting.override
      rw [hc]
      simp [hn]
    refine ⟨h1, fun hv => ?_⟩
    rw [h1]
    unfold Setting.is_default
    simpa using hv

/-- C7 witness: the unit test's bool setting — `is_default` true after
construction, false after overriding the default `true` with `false`,
true again after `reset()`. -/
theorem C7_is_default_witness :
    (Setting.make "bool" true).is_default = true ∧
    (BoolSetting.override (Setting.make "bool" true)
      (fun _ => Except.ok false) "false").2.is_default = false ∧
    (Setting.reset (BoolSetting.override (Setting.make "bool" true)
      (fun _ => Except.ok false) "false").2).is_default = true := by
  have h := C7_is_default Bool "bool" true
  refine ⟨h.1.2.1, ?_, h.1.2.2 _⟩
  exact ((h.2.1 (Setting.make "bool" true) (fun _ => Except.ok false) "false"
    false rfl).2 (by decide))

/-- C8: `add(rawText)` and `multiply(rawText)` on Int and Float settings
parse rawText with the same converter as `override` and then add/multiply
the parsed number into the existing value rather than replacing it. -/
theorem C8_add_multiply :
    (∀ (s : IntSetting) (conv : String → Except PyError Int) raw (n : Int),
      conv raw = Except.ok n →
        IntSetting.add s conv raw = (none, { s with value := s.value + n })
        ∧ IntSetting.multiply s conv raw = (none, { s with value := s.value * n })
        ∧ IntSetting.override s conv raw = (none, { s with value := n }))
    ∧ (∀ (s : FloatSetting) (conv : String → Except PyError Rat) raw (q : Rat),
      conv raw = Except.ok q →
        FloatSetting.add s conv raw = (none, { s with value := s.value + q })
        ∧ FloatSetting.multiply s conv raw = (none, { s with value := s.value * q })
        ∧ FloatSetting.override s conv raw = (none, { s with value := q })) := by
  constructor
  · intro s conv raw n hc
    unfold IntSetting.add IntSetting.multiply IntSetting.override
    rw [hc]
    exact ⟨rfl, rfl, rfl⟩
  · intro s conv raw q hc
    unfold FloatSetting.add FloatSetting.multiply FloatSetting.override
    rw [hc]
    exact ⟨rfl, rfl, rfl⟩

/-- C8 witness: the unit tests' chain — an IntSetting with value 2 has
value 5 after `add` with converter result 3, and value 10 after a
subsequent `multiply` with converter result 2. -/
theorem C8_add_multiply_witness :
    (IntSetting.add (Setting.make "int" 2) (fun _ => Except.ok 3) "any").2.value
      = 5 ∧
    (IntSetting.multiply
      (IntSetting.add (Setting.make "int" 2) (fun _ => Except.ok 3) "any").2
      (fun _ => Except.ok 2) "any").2.value = 10 := by
  have h1 := (C8_add_multiply.1 (Setting.make "int" 2)
    (fun _ => Except.ok 3) "any" 3 rfl).1
  have h2 := (C8_add_multiply.1
    (IntSetting.add (Setting.make "int" 2) (fun _ => Except.ok 3) "any").2
    (fun _ => Except.ok 2) "any" 2 rfl).2.1
  rw [h1] at h2 ⊢
  rw [h2]
  exact ⟨rfl, rfl⟩

end Vimiv
